import Mathlib

/-!
Verification of the natural-language specification of the `ensenso` ROS node
(`src/src/ensenso_node.cpp`) against a shallow embedding of its code.

The node is the `HandeyeCalibration` class: its constructor reads four
parameters, advertises five output topics, opens and configures the Ensenso
device and starts grabbing; its `grabberCallback` converts each frame triple
(point cloud, raw stereo pair, rectified stereo pair) and publishes six
artifacts; `toImageMsg` converts one `pcl::PCLImage` to a ROS image message;
the destructor closes the TCP port and the device.

Machine times (`ros::Time::now()`) are modelled as natural numbers drawn from
an arbitrary clock function `Nat → Nat` indexed by call order (the program
order of the `now()` calls in the callback); image bytes are `List Nat`.
Driver code (`pcl::EnsensoGrabber`) is not part of the repository sources, so
its calls are modelled from the spec where their outcome matters, each such
definition carrying a `Modelled from the spec:` doc comment.
-/

/-- Header of a `pcl::PCLImage` / `pcl::PCLHeader` (stamp and frame label). -/
structure PCLHeader where
  seq : Nat
  stamp : Nat
  frame_id : String
deriving Repr, DecidableEq

/-- A `pcl::PCLImage`: dimensions, a driver-defined encoding tag, raw bytes. -/
structure PCLImage where
  header : PCLHeader
  height : Nat
  width : Nat
  encoding : String
  data : List Nat
deriving Repr, DecidableEq

/-- A `pcl::PointCloud<pcl::PointXYZ>`: header plus point data (coordinates
abstracted to integer triples; the callback never inspects them). -/
structure PointCloudXYZ where
  header : PCLHeader
  points : List (Int × Int × Int)
deriving Repr, DecidableEq

/-- A `std_msgs::Header`. -/
structure RosHeader where
  stamp : Nat
  frame_id : String
deriving Repr, DecidableEq

/-- A `sensor_msgs::Image`. -/
structure ImageMsg where
  header : RosHeader
  height : Nat
  width : Nat
  encoding : String
  data : List Nat
deriving Repr, DecidableEq

/-- A `sensor_msgs::CameraInfo`: header plus calibration payload (matrix and
distortion entries abstracted to one integer list). -/
structure CameraInfo where
  header : RosHeader
  calib : List Int
deriving Repr, DecidableEq

/-- A default-constructed `sensor_msgs::CameraInfo` (all fields zero/empty),
the value `linfo` / `rinfo` hold before `getCameraInfo` fills them. -/
def defaultCameraInfo : CameraInfo :=
  { header := { stamp := 0, frame_id := "" }, calib := [] }

/-- Number of channels of the `cv::Mat` type chosen by `toImageMsg`
(`CV_8UC3` for the three-channel driver encoding, else `CV_8UC1`). -/
def cvChannels (enc : String) : Nat :=
  if enc = "CV_8UC3" then 3 else 1

/-- Embedding of `HandeyeCalibration::toImageMsg`
(src/src/ensenso_node.cpp lines 118-133).  The encoding defaults to
`"mono8"` with type `CV_8UC1` and switches to `"bgr8"` / `CV_8UC3` exactly
when the input tag is `"CV_8UC3"`; the `cv::Mat` wraps the input buffer with
the input's height and width (reading `height*width*channels` bytes), the
message header gets the hardcoded frame label `"world"` and a fresh
`ros::Time::now()` reading, passed here as `now`. -/
def toImageMsg (now : Nat) (pcl_image : PCLImage) : ImageMsg :=
  let encoding : String := if pcl_image.encoding = "CV_8UC3" then "bgr8" else "mono8"
  { header := { stamp := now, frame_id := "world" },
    height := pcl_image.height,
    width := pcl_image.width,
    encoding := encoding,
    data := pcl_image.data.take (pcl_image.height * pcl_image.width * cvChannels pcl_image.encoding) }

/-- Sample raw buffer: 100×80, three-channel driver encoding. -/
def sampleImage3 : PCLImage :=
  { header := { seq := 0, stamp := 7, frame_id := "" },
    height := 80, width := 100, encoding := "CV_8UC3",
    data := List.replicate 24000 5 }

/-- Sample raw buffer: 100×80, unrecognized single-channel encoding tag. -/
def sampleImage1 : PCLImage :=
  { header := { seq := 0, stamp := 7, frame_id := "" },
    height := 80, width := 100, encoding := "CV_16UC1",
    data := List.replicate 8000 9 }

/-- Which eye a `getCameraInfo` query names (`"Left"` / `"Right"`). -/
inductive Eye where
  | left
  | right
deriving Repr, DecidableEq

/-- Modelled from the spec: `pcl::EnsensoGrabber::getCameraInfo` is not under
the repository sources; per the spec it is a per-eye intrinsics query that
either succeeds with a `CameraIntrinsics` or fails (`NotCalibrated`).  A
driver behaviour is a function from eye to optional intrinsics; on failure
the by-reference output argument keeps its default-constructed value, which
is what `Option.getD defaultCameraInfo` renders below. -/
def runCameraInfoQuery (driver : Eye → Option CameraInfo) (e : Eye) : CameraInfo :=
  (driver e).getD defaultCameraInfo

/-- Modelled from the spec: `image_transport::CameraPublisher::publish(image,
info, stamp)` is transport-collaborator code; per the spec the raw channels
receive image and intrinsics "both tagged with the current capture
timestamp", i.e. both headers' stamps are set to the one `stamp` argument
before delivery. -/
def stampBoth (img : ImageMsg) (info : CameraInfo) (stamp : Nat) : ImageMsg × CameraInfo :=
  ({ img with header := { img.header with stamp := stamp } },
   { info with header := { info.header with stamp := stamp } })

/-- The six messages one `grabberCallback` invocation hands to the five
publishers, plus the borrowed buffers as the callback leaves them. -/
structure CallbackOutput where
  leftRawImg : ImageMsg
  leftRawInfo : CameraInfo
  rightRawImg : ImageMsg
  rightRawInfo : CameraInfo
  leftRectImg : ImageMsg
  rightRectImg : ImageMsg
  cloudOut : PointCloudXYZ
  rawAfter : PCLImage × PCLImage
  rectAfter : PCLImage × PCLImage
deriving Repr, DecidableEq

/-- Embedding of `HandeyeCalibration::grabberCallback`
(src/src/ensenso_node.cpp lines 99-116).

`camera_frame_id` is the member `camera_frame_id_`; `clock` gives the value
of the k-th `ros::Time::now()` call of this invocation, numbered in source
order left to right (line 109: call 0 inside `toImageMsg`, call 1 as the
publish stamp; line 110: calls 2 and 3; line 111: call 4; line 112: call 5 —
C++ leaves argument evaluation order unspecified, and no property proved
below depends on the numbering, only on calls being separate).

Steps mirrored from the source: `linfo` / `rinfo` are default-constructed
then filled by `getCameraInfo` whose boolean result is ignored (lines
103-105); both infos' `frame_id` is set to `camera_frame_id_` (106-107); the
raw images are converted and published with their info and a fresh stamp
(109-110), the rectified images converted and published alone (111-112); the
cloud's `header.frame_id` is set through the shared pointer — the only write
to borrowed data — and the cloud is published (114-115).  `rawAfter` /
`rectAfter` record the image buffers after the invocation: `toImageMsg`
takes its `pcl::PCLImage` argument by value, so the callback never writes to
them and they leave unchanged. -/
def grabberCallback (camera_frame_id : String) (clock : Nat → Nat)
    (driver : Eye → Option CameraInfo)
    (cloud : PointCloudXYZ) (rawimages rectifiedimages : PCLImage × PCLImage) :
    CallbackOutput :=
  let linfo0 := runCameraInfoQuery driver Eye.left
  let rinfo0 := runCameraInfoQuery driver Eye.right
  let linfo := { linfo0 with header := { linfo0.header with frame_id := camera_frame_id } }
  let rinfo := { rinfo0 with header := { rinfo0.header with frame_id := camera_frame_id } }
  let lraw := stampBoth (toImageMsg (clock 0) rawimages.1) linfo (clock 1)
  let rraw := stampBoth (toImageMsg (clock 2) rawimages.2) rinfo (clock 3)
  let lrect := toImageMsg (clock 4) rectifiedimages.1
  let rrect := toImageMsg (clock 5) rectifiedimages.2
  let cloud' := { cloud with header := { cloud.header with frame_id := camera_frame_id } }
  { leftRawImg := lraw.1, leftRawInfo := lraw.2,
    rightRawImg := rraw.1, rightRawInfo := rraw.2,
    leftRectImg := lrect, rightRectImg := rrect,
    cloudOut := cloud',
    rawAfter := rawimages, rectAfter := rectifiedimages }

/-- One publication performed by the callback, tagged with its channel. -/
inductive Event where
  | leftRaw (img : ImageMsg) (info : CameraInfo)
  | rightRaw (img : ImageMsg) (info : CameraInfo)
  | leftRect (img : ImageMsg)
  | rightRect (img : ImageMsg)
  | cloudMsg (pc : PointCloudXYZ)
deriving Repr, DecidableEq

/-- Channel tag of an event. -/
inductive EventKind where
  | leftRaw
  | rightRaw
  | leftRect
  | rightRect
  | cloudMsg
deriving Repr, DecidableEq

/-- Channel tag of a publication event. -/
def Event.kind : Event → EventKind
  | .leftRaw _ _ => .leftRaw
  | .rightRaw _ _ => .rightRaw
  | .leftRect _ => .leftRect
  | .rightRect _ => .rightRect
  | .cloudMsg _ => .cloudMsg

/-- Whether an event is the left raw-image publication. -/
def Event.isLeftRaw : Event → Bool
  | .leftRaw _ _ => true
  | _ => false

/-- Every coordinate-frame label an event's artifact carries (image header
label, and for raw channels also the intrinsics header label). -/
def Event.frameLabels : Event → List String
  | .leftRaw img info => [img.header.frame_id, info.header.frame_id]
  | .rightRaw img info => [img.header.frame_id, info.header.frame_id]
  | .leftRect img => [img.header.frame_id]
  | .rightRect img => [img.header.frame_id]
  | .cloudMsg pc => [pc.header.frame_id]

/-- Every timestamp an event's artifact carries. -/
def Event.stamps : Event → List Nat
  | .leftRaw img info => [img.header.stamp, info.header.stamp]
  | .rightRaw img info => [img.header.stamp, info.header.stamp]
  | .leftRect img => [img.header.stamp]
  | .rightRect img => [img.header.stamp]
  | .cloudMsg pc => [pc.header.stamp]

/-- The publication trace of one `grabberCallback` invocation, in the order
the publish calls occur in the source (lines 109, 110, 111, 112, 115). -/
def callbackTrace (camera_frame_id : String) (clock : Nat → Nat)
    (driver : Eye → Option CameraInfo)
    (cloud : PointCloudXYZ) (rawimages rectifiedimages : PCLImage × PCLImage) :
    List Event :=
  let o := grabberCallback camera_frame_id clock driver cloud rawimages rectifiedimages
  [Event.leftRaw o.leftRawImg o.leftRawInfo,
   Event.rightRaw o.rightRawImg o.rightRawInfo,
   Event.leftRect o.leftRectImg,
   Event.rightRect o.rightRectImg,
   Event.cloudMsg o.cloudOut]

/-- The spec's claimed invariant: all artifacts of one invocation carry one
identical timestamp. -/
def allStampsEqual (trace : List Event) : Prop :=
  ∀ s ∈ trace.flatMap Event.stamps, ∀ t ∈ trace.flatMap Event.stamps, s = t

instance (trace : List Event) : Decidable (allStampsEqual trace) := by
  unfold allStampsEqual
  infer_instance

/-- Small concrete raw buffer (2×1) with the given encoding tag. -/
def smallImg (enc : String) : PCLImage :=
  { header := { seq := 0, stamp := 0, frame_id := "" },
    height := 1, width := 2, encoding := enc, data := [1, 2, 3, 4, 5, 6] }

/-- Concrete input cloud with a driver-provided stamp and frame label. -/
def sampleCloud : PointCloudXYZ :=
  { header := { seq := 0, stamp := 7, frame_id := "cam" }, points := [(1, 2, 3)] }

/-- Concrete driver behaviour: both intrinsics queries succeed. -/
def sampleDriver : Eye → Option CameraInfo
  | .left => some { header := { stamp := 0, frame_id := "drv" }, calib := [1] }
  | .right => some { header := { stamp := 0, frame_id := "drv" }, calib := [2] }

/-- Concrete driver behaviour: the left intrinsics query fails. -/
def failLeftDriver : Eye → Option CameraInfo
  | .left => none
  | .right => some { header := { stamp := 0, frame_id := "drv" }, calib := [2] }

/-- Concrete raw stereo pair for counterexample runs. -/
def rawPair : PCLImage × PCLImage := (smallImg "CV_8UC3", smallImg "CV_8UC3")

/-- Concrete rectified stereo pair for counterexample runs. -/
def rectPair : PCLImage × PCLImage := (smallImg "mono8", smallImg "mono8")

/-- The four startup parameters as the parameter server may hold them
(`none` = parameter absent, `hasParam` false). -/
structure ParamStore where
  serial_no : Option String
  camera_frame_id : Option String
  front_light : Option Bool
  projector : Option Bool
deriving Repr, DecidableEq

/-- The configuration the constructor proceeds with after reading params. -/
structure Config where
  serial_no : String
  camera_frame_id : String
  front_light : Bool
  projector : Bool
deriving Repr, DecidableEq

/-- One `ROS_WARN_STREAM` about a missing parameter. -/
inductive ParamWarning where
  | serial_no
  | camera_frame_id
  | front_light
  | projector
deriving Repr, DecidableEq

/-- Parameter store with every option absent. -/
def emptyParams : ParamStore :=
  { serial_no := none, camera_frame_id := none, front_light := none, projector := none }

/-- Embedding of the parameter-reading prologue of the constructor
(src/src/ensenso_node.cpp lines 56-70): each `nh_private_.param(name, var,
default)` call yields the stored value when present, otherwise the default
(`"150533"`, `"ensenso_optical_frame"`, `false`, `false`), and a warning is
emitted exactly when `hasParam` is false.  The function is total: a missing
parameter never fails. -/
def readParameters (p : ParamStore) : Config × List ParamWarning :=
  ({ serial_no := p.serial_no.getD "150533",
     camera_frame_id := p.camera_frame_id.getD "ensenso_optical_frame",
     front_light := p.front_light.getD false,
     projector := p.projector.getD false },
   (if p.serial_no.isNone then [ParamWarning.serial_no] else []) ++
   (if p.camera_frame_id.isNone then [ParamWarning.camera_frame_id] else []) ++
   (if p.front_light.isNone then [ParamWarning.front_light] else []) ++
   (if p.projector.isNone then [ParamWarning.projector] else []))

/-- One externally visible step of the constructor. -/
inductive InitEvent where
  | advertiseChannel (topic : String) (latched : Bool)
  | openDevice (serial : String)
  | openTcpPort
  | configureCapture
  | enableProjector (b : Bool)
  | enableFrontLight (b : Bool)
  | registerCallback
  | startGrabber
deriving Repr, DecidableEq

/-- The five advertise calls of the constructor in source order
(src/src/ensenso_node.cpp lines 73-77): the four `image_transport`
advertisements use that API's default `latch = false`, while the cloud topic
is advertised with the explicit third argument `true` (`// Latched`). -/
def advertiseEvents : List InitEvent :=
  [InitEvent.advertiseChannel "left/image_raw" false,
   InitEvent.advertiseChannel "right/image_raw" false,
   InitEvent.advertiseChannel "left/image_rect" false,
   InitEvent.advertiseChannel "right/image_rect" false,
   InitEvent.advertiseChannel "depth/points" true]

/-- Modelled from the spec: whether the two device-reachability calls of the
constructor succeed.  `pcl::EnsensoGrabber::openDevice` / `openTcpPort` are
not under the repository sources; per the spec `open` fails with
`DeviceNotFound` and `openControlChannel` with `ConnectionError`, and
"configuration failures before start() are fatal to initialization", so a
failure aborts the rest of the constructor. -/
structure DriverOutcome where
  openDeviceOk : Bool
  openTcpPortOk : Bool
deriving Repr, DecidableEq

/-- Embedding of the constructor `HandeyeCalibration::HandeyeCalibration`
(src/src/ensenso_node.cpp lines 53-91) as the trace of its externally
visible steps: read parameters, advertise the five topics (73-77), then open
the device (80), open the TCP control port (81), configure capture, set the
projector and front light, register the grabber callback and start grabbing
(82-90).  A failing open aborts the remaining steps (modelled from the
spec's fatal-initialization rule); the advertisements have already happened
by then because they precede the open calls in the source. -/
def constructorTrace (p : ParamStore) (d : DriverOutcome) : List InitEvent :=
  let cfg := (readParameters p).1
  advertiseEvents ++
    (InitEvent.openDevice cfg.serial_no ::
      (if d.openDeviceOk then
        InitEvent.openTcpPort ::
          (if d.openTcpPortOk then
            [InitEvent.configureCapture,
             InitEvent.enableProjector cfg.projector,
             InitEvent.enableFrontLight cfg.front_light,
             InitEvent.registerCallback,
             InitEvent.startGrabber]
           else [])
       else []))

/-- Whether an init event is a channel advertisement. -/
def InitEvent.isAdvertise : InitEvent → Bool
  | .advertiseChannel _ _ => true
  | _ => false

/-- The latch flag the constructor advertises a topic with, when it
advertises that topic. -/
def advertisedLatch (topic : String) : Option Bool :=
  (advertiseEvents.filterMap fun e =>
    match e with
    | InitEvent.advertiseChannel t l => if t = topic then some l else none
    | _ => none).head?

/-- Modelled from the spec: retained/latched delivery of the transport
collaborator — "a channel that re-delivers the last published value to new
consumers without a new publish event".  A consumer attaching after a
publication receives the most recently published message when the channel is
latched, and nothing (until the next publish) when it is not. -/
def lateSubscriberReceives {α : Type} (latched : Bool) (lastPublished : Option α) :
    Option α :=
  if latched then lastPublished else none

/-- One step of the destructor's teardown. -/
inductive TeardownStep where
  | stopGrabber
  | closeTcpPort
  | closeDevice
deriving Repr, DecidableEq

/-- Embedding of the destructor `HandeyeCalibration::~HandeyeCalibration`
(src/src/ensenso_node.cpp lines 93-97): it calls `closeTcpPort()` then
`closeDevice()` and nothing else — in particular no `stop()`.  Modelled from
the spec for the failure behaviour of the two driver calls: teardown
failures are reported by return value and "never block subsequent cleanup
steps", so both steps execute whatever the outcomes `ok1`, `ok2` of the
individual calls. -/
def destructorTrace (_ok1 _ok2 : Bool) : List TeardownStep :=
  [TeardownStep.closeTcpPort, TeardownStep.closeDevice]

/-- C2: the conversion adapter `toImageMsg` is total on encodings: input tag
`"CV_8UC3"` yields output encoding `"bgr8"`, every other tag yields
`"mono8"`, and the output always has the input's width and height. -/
theorem C2_toImageMsg_encoding_total (now : Nat) (img : PCLImage) :
    (img.encoding = "CV_8UC3" → (toImageMsg now img).encoding = "bgr8") ∧
    (img.encoding ≠ "CV_8UC3" → (toImageMsg now img).encoding = "mono8") ∧
    (toImageMsg now img).width = img.width ∧
    (toImageMsg now img).height = img.height := by
  refine ⟨fun h => ?_, fun h => ?_, rfl, rfl⟩
  · simp [toImageMsg, h]
  · simp [toImageMsg, h]

/-- Witness for C2 at the spec's scenario inputs: a 100×80 three-channel
buffer maps to a 100×80 `"bgr8"` artifact, and a 100×80 buffer with an
unrecognized tag maps to a 100×80 `"mono8"` artifact. -/
theorem C2_toImageMsg_encoding_total_witness :
    (toImageMsg 0 sampleImage3).encoding = "bgr8" ∧
    (toImageMsg 0 sampleImage3).width = 100 ∧
    (toImageMsg 0 sampleImage3).height = 80 ∧
    (toImageMsg 0 sampleImage1).encoding = "mono8" ∧
    (toImageMsg 0 sampleImage1).width = 100 ∧
    (toImageMsg 0 sampleImage1).height = 80 := by
  refine ⟨(C2_toImageMsg_encoding_total 0 sampleImage3).1 (by decide),
    ?_, ?_, (C2_toImageMsg_encoding_total 0 sampleImage1).2.1 (by decide), ?_, ?_⟩
  · exact (C2_toImageMsg_encoding_total 0 sampleImage3).2.2.1
  · exact (C2_toImageMsg_encoding_total 0 sampleImage3).2.2.2
  · exact (C2_toImageMsg_encoding_total 0 sampleImage1).2.2.1
  · exact (C2_toImageMsg_encoding_total 0 sampleImage1).2.2.2

/-- C1: the claim says every artifact of one invocation carries the frame
label `camera_frame_id_`.  Evaluating the callback at the configured label
`"ensenso_optical_frame"` shows the code gives every image header the
hardcoded label `"world"` (set inside `toImageMsg`, line 130) while the
intrinsics records and the cloud carry the configured label — the
single-label invariant the spec mandates is broken by the image headers. -/
theorem C1_frame_label_divergence_eval :
    (grabberCallback "ensenso_optical_frame" (fun k => k) sampleDriver sampleCloud
      rawPair rectPair).leftRawImg.header.frame_id = "world" ∧
    (grabberCallback "ensenso_optical_frame" (fun k => k) sampleDriver sampleCloud
      rawPair rectPair).rightRawImg.header.frame_id = "world" ∧
    (grabberCallback "ensenso_optical_frame" (fun k => k) sampleDriver sampleCloud
      rawPair rectPair).leftRectImg.header.frame_id = "world" ∧
    (grabberCallback "ensenso_optical_frame" (fun k => k) sampleDriver sampleCloud
      rawPair rectPair).rightRectImg.header.frame_id = "world" ∧
    (grabberCallback "ensenso_optical_frame" (fun k => k) sampleDriver sampleCloud
      rawPair rectPair).leftRawInfo.header.frame_id = "ensenso_optical_frame" ∧
    (grabberCallback "ensenso_optical_frame" (fun k => k) sampleDriver sampleCloud
      rawPair rectPair).rightRawInfo.header.frame_id = "ensenso_optical_frame" ∧
    (grabberCallback "ensenso_optical_frame" (fun k => k) sampleDriver sampleCloud
      rawPair rectPair).cloudOut.header.frame_id = "ensenso_optical_frame" ∧
    "world" ≠ "ensenso_optical_frame" := by
  refine ⟨rfl, rfl, rfl, rfl, rfl, rfl, rfl, by decide⟩

/-- C8: the callback emits its artifacts in the fixed order left raw with
intrinsics, right raw with intrinsics, left rectified, right rectified,
point cloud, for every input. -/
theorem C8_emission_order (cfg : String) (clock : Nat → Nat)
    (driver : Eye → Option CameraInfo) (cloud : PointCloudXYZ)
    (raws rects : PCLImage × PCLImage) :
    (callbackTrace cfg clock driver cloud raws rects).map Event.kind =
      [EventKind.leftRaw, EventKind.rightRaw, EventKind.leftRect,
       EventKind.rightRect, EventKind.cloudMsg] := rfl

/-- C10: the only mutation the callback applies to borrowed input data is
setting the cloud's header frame label: the published cloud equals the input
cloud with exactly the `frame_id` field replaced (points and stamp intact),
and the raw and rectified buffers leave the invocation unchanged. -/
theorem C10_only_cloud_frame_mutation (cfg : String) (clock : Nat → Nat)
    (driver : Eye → Option CameraInfo) (cloud : PointCloudXYZ)
    (raws rects : PCLImage × PCLImage) :
    (grabberCallback cfg clock driver cloud raws rects).rawAfter = raws ∧
    (grabberCallback cfg clock driver cloud raws rects).rectAfter = rects ∧
    (grabberCallback cfg clock driver cloud raws rects).cloudOut =
      { cloud with header := { cloud.header with frame_id := cfg } } ∧
    (grabberCallback cfg clock driver cloud raws rects).cloudOut.points = cloud.points ∧
    (grabberCallback cfg clock driver cloud raws rects).cloudOut.header.stamp =
      cloud.header.stamp :=
  ⟨rfl, rfl, rfl, rfl, rfl⟩

/-- C5 counterexample: at a concrete input (clock reading k at the k-th
`now()` call, cloud arriving with stamp 7) the artifacts of one triple do
NOT all carry one identical timestamp, refuting the claim as stated. -/
theorem C5_counterexample_stamps_differ :
    ¬ allStampsEqual (callbackTrace "ensenso_optical_frame" (fun k => k)
      sampleDriver sampleCloud rawPair rectPair) := by decide

/-- C5 amended: each raw image shares one fresh `ros::Time::now()` stamp
with its own intrinsics record (the stamp argument of the camera publish
call), but the left raw pair, right raw pair and each rectified image are
stamped by separate clock readings, and the point cloud keeps the stamp it
arrived with — artifacts of one triple do not in general share one
timestamp. -/
theorem C5_per_artifact_stamps (cfg : String) (clock : Nat → Nat)
    (driver : Eye → Option CameraInfo) (cloud : PointCloudXYZ)
    (raws rects : PCLImage × PCLImage) :
    (grabberCallback cfg clock driver cloud raws rects).leftRawImg.header.stamp = clock 1 ∧
    (grabberCallback cfg clock driver cloud raws rects).leftRawInfo.header.stamp = clock 1 ∧
    (grabberCallback cfg clock driver cloud raws rects).rightRawImg.header.stamp = clock 3 ∧
    (grabberCallback cfg clock driver cloud raws rects).rightRawInfo.header.stamp = clock 3 ∧
    (grabberCallback cfg clock driver cloud raws rects).leftRectImg.header.stamp = clock 4 ∧
    (grabberCallback cfg clock driver cloud raws rects).rightRectImg.header.stamp = clock 5 ∧
    (grabberCallback cfg clock driver cloud raws rects).cloudOut.header.stamp =
      cloud.header.stamp :=
  ⟨rfl, rfl, rfl, rfl, rfl, rfl, rfl⟩

/-- C3 counterexample: at a concrete input where the left intrinsics query
fails, the left raw-image artifact is still published — it is not dropped,
refuting the claim as stated. -/
theorem C3_counterexample_left_raw_not_dropped :
    failLeftDriver Eye.left = none ∧
    (callbackTrace "ensenso_optical_frame" (fun k => k) failLeftDriver sampleCloud
      rawPair rectPair).any Event.isLeftRaw = true := ⟨rfl, rfl⟩

/-- C3 amended: the callback ignores the result of the intrinsics query;
when the query for one eye fails that eye's raw image is still published,
paired with a default-constructed intrinsics record (only its frame label
set), and all five artifacts of the triple are delivered — the callback is a
total function, so no failure propagates to the acquisition thread. -/
theorem C3_failed_query_ignored (cfg : String) (clock : Nat → Nat)
    (driver : Eye → Option CameraInfo) (cloud : PointCloudXYZ)
    (raws rects : PCLImage × PCLImage) (h : driver Eye.left = none) :
    (grabberCallback cfg clock driver cloud raws rects).leftRawInfo.calib =
      defaultCameraInfo.calib ∧
    (grabberCallback cfg clock driver cloud raws rects).leftRawInfo.header.frame_id = cfg ∧
    (callbackTrace cfg clock driver cloud raws rects).any Event.isLeftRaw = true ∧
    (callbackTrace cfg clock driver cloud raws rects).length = 5 := by
  refine ⟨?_, rfl, rfl, rfl⟩
  simp [grabberCallback, stampBoth, runCameraInfoQuery, h]

/-- Witness for C3 amended at a concrete failing driver. -/
theorem C3_failed_query_ignored_witness :
    (grabberCallback "ensenso_optical_frame" (fun k => k) failLeftDriver sampleCloud
      rawPair rectPair).leftRawInfo.calib = defaultCameraInfo.calib ∧
    (grabberCallback "ensenso_optical_frame" (fun k => k) failLeftDriver sampleCloud
      rawPair rectPair).leftRawInfo.header.frame_id = "ensenso_optical_frame" ∧
    (callbackTrace "ensenso_optical_frame" (fun k => k) failLeftDriver sampleCloud
      rawPair rectPair).any Event.isLeftRaw = true ∧
    (callbackTrace "ensenso_optical_frame" (fun k => k) failLeftDriver sampleCloud
      rawPair rectPair).length = 5 :=
  C3_failed_query_ignored "ensenso_optical_frame" (fun k => k) failLeftDriver
    sampleCloud rawPair rectPair rfl

/-- C7: for every configuration option, absence yields the documented
default plus a warning (and `readParameters` is total, so never a hard
failure); in particular an omitted coordinate-frame label yields
`"ensenso_optical_frame"`. -/
theorem C7_absent_param_default_and_warning (p : ParamStore) :
    (p.camera_frame_id = none →
      (readParameters p).1.camera_frame_id = "ensenso_optical_frame" ∧
      ParamWarning.camera_frame_id ∈ (readParameters p).2) ∧
    (p.serial_no = none →
      (readParameters p).1.serial_no = "150533" ∧
      ParamWarning.serial_no ∈ (readParameters p).2) ∧
    (p.front_light = none →
      (readParameters p).1.front_light = false ∧
      ParamWarning.front_light ∈ (readParameters p).2) ∧
    (p.projector = none →
      (readParameters p).1.projector = false ∧
      ParamWarning.projector ∈ (readParameters p).2) := by
  refine ⟨fun h => ⟨?_, ?_⟩, fun h => ⟨?_, ?_⟩, fun h => ⟨?_, ?_⟩, fun h => ⟨?_, ?_⟩⟩ <;>
    simp [readParameters, h]

/-- Witness for C7 at the all-absent parameter store. -/
theorem C7_absent_param_default_and_warning_witness :
    (readParameters emptyParams).1.camera_frame_id = "ensenso_optical_frame" ∧
    ParamWarning.camera_frame_id ∈ (readParameters emptyParams).2 ∧
    (readParameters emptyParams).1.serial_no = "150533" ∧
    ParamWarning.serial_no ∈ (readParameters emptyParams).2 ∧
    (readParameters emptyParams).1.front_light = false ∧
    ParamWarning.front_light ∈ (readParameters emptyParams).2 ∧
    (readParameters emptyParams).1.projector = false ∧
    ParamWarning.projector ∈ (readParameters emptyParams).2 := by
  obtain ⟨hc, hs, hf, hp⟩ := C7_absent_param_default_and_warning emptyParams
  exact ⟨(hc rfl).1, (hc rfl).2, (hs rfl).1, (hs rfl).2,
         (hf rfl).1, (hf rfl).2, (hp rfl).1, (hp rfl).2⟩

/-- C6 counterexample: with the device unreachable (`openDevice` fails) the
constructor has already advertised the output channels — the claim that no
channel is advertised before a successful open is false at this input; the
failure does abort the rest (no grabber start). -/
theorem C6_counterexample_advertised_despite_failure :
    (constructorTrace emptyParams
      { openDeviceOk := false, openTcpPortOk := false }).any InitEvent.isAdvertise = true ∧
    InitEvent.startGrabber ∉
      constructorTrace emptyParams { openDeviceOk := false, openTcpPortOk := false } := by
  decide

/-- C6 amended: the constructor advertises all five output channels first,
unconditionally — the first five trace steps are the advertisements for
every parameter store and driver outcome — and only then opens the device;
when opening the device or the control channel fails, initialization aborts
before streaming (the grabber is started only when both open calls
succeed). -/
theorem C6_advertise_precedes_open (p : ParamStore) (d : DriverOutcome) :
    (constructorTrace p d).take 5 = advertiseEvents ∧
    (InitEvent.startGrabber ∈ constructorTrace p d →
      d.openDeviceOk = true ∧ d.openTcpPortOk = true) := by
  obtain ⟨od, otp⟩ := d
  cases od <;> cases otp <;>
    simp [constructorTrace, advertiseEvents, readParameters]

/-- Witness for C6 amended at a concrete store and outcome with the grabber
actually started. -/
theorem C6_advertise_precedes_open_witness :
    (constructorTrace emptyParams { openDeviceOk := true, openTcpPortOk := true }).take 5 =
      advertiseEvents ∧
    ({ openDeviceOk := true, openTcpPortOk := true } : DriverOutcome).openDeviceOk = true ∧
    ({ openDeviceOk := true, openTcpPortOk := true } : DriverOutcome).openTcpPortOk = true := by
  obtain ⟨h1, h2⟩ :=
    C6_advertise_precedes_open emptyParams { openDeviceOk := true, openTcpPortOk := true }
  exact ⟨h1, h2 (by decide)⟩

/-- C9: the constructor advertises the point-cloud channel latched and the
four image channels non-latched, so under retained-delivery semantics a
consumer attaching after a publication still receives the last published
cloud with no new capture, while a late consumer of an image channel
receives nothing. -/
theorem C9_cloud_channel_latched (m : PointCloudXYZ) (img : ImageMsg) :
    advertisedLatch "depth/points" = some true ∧
    lateSubscriberReceives ((advertisedLatch "depth/points").getD false) (some m) = some m ∧
    lateSubscriberReceives ((advertisedLatch "left/image_raw").getD false) (some img) = none ∧
    lateSubscriberReceives ((advertisedLatch "right/image_raw").getD false) (some img) = none ∧
    lateSubscriberReceives ((advertisedLatch "left/image_rect").getD false) (some img) = none ∧
    lateSubscriberReceives ((advertisedLatch "right/image_rect").getD false) (some img) = none :=
  ⟨rfl, rfl, rfl, rfl, rfl, rfl⟩

/-- C4 counterexample: the destructor's teardown trace contains no
stop-acquisition step at all, so it is not the claimed three-step sequence
stop, close control channel, release device. -/
theorem C4_counterexample_no_stop_step :
    TeardownStep.stopGrabber ∉ destructorTrace true true ∧
    destructorTrace true true ≠
      [TeardownStep.stopGrabber, TeardownStep.closeTcpPort, TeardownStep.closeDevice] := by
  decide

/-- C4 amended: on disposal the teardown performs exactly: close the control
channel, then release the device binding, in that order; both steps execute
whatever the outcome of either call, but no explicit stop of the acquisition
is performed first. -/
theorem C4_teardown_order (ok1 ok2 : Bool) :
    destructorTrace ok1 ok2 = [TeardownStep.closeTcpPort, TeardownStep.closeDevice] := rfl
